import Mathlib

/-!
Verification of `dashboard/dashboard/common/cloud_metric.py`.

The module publishes labeled, timestamped numeric data points to a cloud
monitoring backend.  We embed it shallowly:

* Wall-clock readings and metric values are exact rationals (`ℚ`); Python
  `int(x)` truncation toward zero is `pyInt`.
* A `TimeSeries` record mirrors the `monitoring_v3.TimeSeries` object the
  code builds: metric type string, resource type, resource labels, metric
  labels (association lists of string pairs) and a list of data points.
* Effects are traces: each publish call returns the list of observable
  `Event`s it produced (the `create_time_series` RPC carrying the series,
  warning/info log lines) together with an `Except PyExn` outcome that is
  `Except.error` exactly when the Python call raises.
* Nondeterminism of the environment is a `CallCtx` per publish call:
  whether the `MetricServiceClient()` constructor succeeds, whether the
  backend send `create_time_series` raises, and the `time.time()` reading
  taken inside the publish primitive.
-/

namespace CloudMetric

/-- Python `int (x)` on a rational: truncation toward zero. -/
def pyInt (q : ℚ) : ℤ := if 0 ≤ q then ⌊q⌋ else ⌈q⌉

/-- Module constant `METRIC_TYPE_PREFIX = "custom.googleapis.com/"` (renamed). -/
def METRIC_TYPE_HEAD : String := "custom.googleapis.com/"

/-- Module constant `RESOURCE_TYPE`. -/
def RESOURCE_TYPE : String := "generic_task"

/-- Module constant `LOCATION`. -/
def LOCATION : String := "us-central1"

/-- Module constant `NAMESPACE`. -/
def NAMESPACE : String := "Prod"

/-- Module constant `DEFAULT_TASK_ID`. -/
def DEFAULT_TASK_ID : String := "task_id"

/-- Module constant `JOB_ID`. -/
def JOB_ID : String := "job_id"

/-- Module constant `JOB_TYPE`. -/
def JOB_TYPE : String := "job_type"

/-- Module constant `JOB_STATUS`. -/
def JOB_STATUS : String := "job_status"

/-- Module constant `API_METRIC_TYPE`. -/
def API_METRIC_TYPE : String := "api/metrics"

/-- Module constant `API_NAME`. -/
def API_NAME : String := "api_name"

/-- Module constant `REQUEST_STATUS`. -/
def REQUEST_STATUS : String := "request_status"

/-- Module constant `UUID` (the label key). -/
def UUID : String := "uuid"

/-- Default value of the `metric_value=1` keyword argument of the publish
primitive and the job-metric helpers. -/
def defaultMetricValue : ℚ := 1

/-- Association list of string labels, in insertion order. -/
abbrev Labels := List (String × String)

/-- One `monitoring_v3.Point`: interval end time split into whole seconds and
nanosecond remainder, plus the double value. -/
structure Point where
  seconds : ℤ
  nanos : ℤ
  doubleValue : ℚ
deriving DecidableEq, Repr

/-- The `monitoring_v3.TimeSeries` object built by `_PublishTSCloudMetric`. -/
structure TimeSeries where
  metricType : String
  resourceType : String
  resourceLabels : Labels
  metricLabels : Labels
  points : List Point
deriving DecidableEq, Repr

/-- Python exceptions that can cross the boundaries modelled here:
failure of the `monitoring_v3.MetricServiceClient()` constructor, and an
arbitrary exception raised by a user block wrapped in the scoped timer
(distinguished by a numeric code so distinct exceptions stay distinct). -/
inductive PyExn where
  | clientCtorError
  | blockExn (code : ℕ)
deriving DecidableEq, Repr

/-- Observable events of one run: the outbound `create_time_series` RPC
(carrying the project resource name and the single series), the warning log
line of the publish primitive's `except` clause, and the info log line of the
scoped timer's normal exit. -/
inductive Event where
  | createTimeSeries (name : String) (series : TimeSeries)
  | logWarning
  | logInfo (service api : String) (seconds : ℚ)
deriving DecidableEq, Repr

/-- Environment of a single call to the publish primitive: whether client
construction succeeds, whether the backend send raises, and the wall-clock
reading `time.time()` taken for the data point. -/
structure CallCtx where
  clientOk : Bool
  sendOk : Bool
  now : ℚ
deriving DecidableEq, Repr

/-- The series object `_PublishTSCloudMetric` constructs, lines 79-118 of
`cloud_metric.py`: metric type is the fixed head plus the given suffix, the
five fixed resource labels, the caller's labels as metric labels, and exactly
one data point whose end time is `now` split with `int()` truncation. -/
def buildSeries (project_id service_name metric_type : String)
    (label_dict : Labels) (metric_value : ℚ) (now : ℚ) : TimeSeries :=
  let seconds : ℤ := pyInt now
  let nanos : ℤ := pyInt ((now - (seconds : ℚ)) * 10 ^ 9)
  ⟨ METRIC_TYPE_HEAD ++ metric_type,
    RESOURCE_TYPE,
    [("project_id", project_id), ("location", LOCATION),
     ("namespace", NAMESPACE), ("job", service_name),
     ("task_id", DEFAULT_TASK_ID)],
    label_dict,
    [⟨seconds, nanos, metric_value⟩] ⟩

/-- `_PublishTSCloudMetric(project_id, service_name, metric_type, label_dict,
metric_value)`.  Client construction happens first and outside any handler:
if it raises, nothing is sent and the exception propagates.  Otherwise the
series is built and sent once; an exception from `create_time_series` is
caught broadly and replaced by a warning log line. -/
def PublishTSCloudMetric (ctx : CallCtx) (project_id service_name metric_type : String)
    (label_dict : Labels) (metric_value : ℚ) : List Event × Except PyExn Unit :=
  if ctx.clientOk then
    let series := buildSeries project_id service_name metric_type label_dict
      metric_value ctx.now
    let ev := Event.createTimeSeries ("projects/" ++ project_id) series
    if ctx.sendOk then
      ([ev], Except.ok ())
    else
      ([ev, Event.logWarning], Except.ok ())
  else
    ([], Except.error PyExn.clientCtorError)

/-- The label dict `{JOB_ID: job_id, JOB_TYPE: job_type, JOB_STATUS:
job_status}` built identically by all four job-metric helpers. -/
def jobLabelDict (job_id job_type job_status : String) : Labels :=
  [(JOB_ID, job_id), (JOB_TYPE, job_type), (JOB_STATUS, job_status)]

/-- `PublishFrozenJobMetric`. -/
def PublishFrozenJobMetric (ctx : CallCtx)
    (project_id job_id job_type job_status : String)
    (metric_value : ℚ) : List Event × Except PyExn Unit :=
  PublishTSCloudMetric ctx project_id "pinpoint" "pinpoint/job/frozen_job"
    (jobLabelDict job_id job_type job_status) metric_value

/-- `PublishPinpointJobStatusMetric`. -/
def PublishPinpointJobStatusMetric (ctx : CallCtx)
    (project_id job_id job_type job_status : String)
    (metric_value : ℚ) : List Event × Except PyExn Unit :=
  PublishTSCloudMetric ctx project_id "pinpoint" "pinpoint/job/status_change"
    (jobLabelDict job_id job_type job_status) metric_value

/-- `PublishPinpointJobRunTimeMetric`. -/
def PublishPinpointJobRunTimeMetric (ctx : CallCtx)
    (project_id job_id job_type job_status : String)
    (metric_value : ℚ) : List Event × Except PyExn Unit :=
  PublishTSCloudMetric ctx project_id "pinpoint" "pinpoint/job/run_time"
    (jobLabelDict job_id job_type job_status) metric_value

/-- `PublishPinpointJobDetailMetrics`: three sequential calls to the publish
primitive, one per metric-type suffix, sharing one label dict; each call has
its own environment (its own client construction, send outcome and clock
reading).  An exception from one call aborts the remaining ones. -/
def PublishPinpointJobDetailMetrics (ctx1 ctx2 ctx3 : CallCtx)
    (project_id job_id job_type job_status : String)
    (change_count attempt_count difference_count : ℚ) :
    List Event × Except PyExn Unit :=
  let label_dict := jobLabelDict job_id job_type job_status
  let r1 := PublishTSCloudMetric ctx1 project_id "pinpoint"
    "pinpoint/job/change_count_per_job" label_dict change_count
  match r1.2 with
  | Except.error e => (r1.1, Except.error e)
  | Except.ok _ =>
    let r2 := PublishTSCloudMetric ctx2 project_id "pinpoint"
      "pinpoint/job/attempt_count_per_job" label_dict attempt_count
    match r2.2 with
    | Except.error e => (r1.1 ++ r2.1, Except.error e)
    | Except.ok _ =>
      let r3 := PublishTSCloudMetric ctx3 project_id "pinpoint"
        "pinpoint/job/difference_count_per_job" label_dict difference_count
      (r1.1 ++ r2.1 ++ r3.1, r3.2)

/-- State of an `APIMetricLogger` instance: constructor stores the two names,
`_start = None`, `seconds = 0`. -/
structure APIMetricLogger where
  service_name : String
  api_name : String
  start : Option ℚ
  seconds : ℚ
deriving DecidableEq, Repr

/-- `APIMetricLogger(service_name, api_name)`. -/
def APIMetricLogger.mk0 (service_name api_name : String) : APIMetricLogger :=
  ⟨service_name, api_name, none, 0⟩

/-- `APIMetricLogger.__enter__`: records `_start` from `_Now()` (the reading
`tNow`), then publishes one point with labels `{api_name, request_status:
"started", uuid: u}` and the default value 1.  `app_id` is the value of
`app_identity.get_application_id()`; `ctx` is the publish call's
environment. -/
def APIMetricLogger.enter (lg : APIMetricLogger) (tNow : ℚ) (app_id u : String)
    (ctx : CallCtx) : APIMetricLogger × (List Event × Except PyExn Unit) :=
  let lg2 : APIMetricLogger := ⟨lg.service_name, lg.api_name, some tNow, lg.seconds⟩
  (lg2, PublishTSCloudMetric ctx app_id lg.service_name API_METRIC_TYPE
    [(API_NAME, lg.api_name), (REQUEST_STATUS, "started"), (UUID, u)]
    defaultMetricValue)

/-- `APIMetricLogger.__exit__`.  `excRaised` is whether `exception_type` is
not `None`; `tNow` is the `_Now()` reading of the normal-exit branch.  Normal
exit stores the elapsed seconds, logs them at info level, publishes a
"completed" point carrying them, and returns `True`; exceptional exit
publishes a "failed" point with the default value 1 and returns `False`
(the original exception is thrown out).  The `Bool` in the outcome is the
value `__exit__` returns; `Except.error` means `__exit__` itself raised. -/
def APIMetricLogger.exit (lg : APIMetricLogger) (excRaised : Bool) (tNow : ℚ)
    (app_id u : String) (ctx : CallCtx) :
    APIMetricLogger × List Event × Except PyExn Bool :=
  if excRaised then
    let r := PublishTSCloudMetric ctx app_id lg.service_name API_METRIC_TYPE
      [(API_NAME, lg.api_name), (REQUEST_STATUS, "failed"), (UUID, u)]
      defaultMetricValue
    (lg, r.1,
      match r.2 with
      | Except.ok _ => Except.ok false
      | Except.error e => Except.error e)
  else
    let secs := tNow - lg.start.getD 0
    let lg2 : APIMetricLogger := ⟨lg.service_name, lg.api_name, lg.start, secs⟩
    let r := PublishTSCloudMetric ctx app_id lg.service_name API_METRIC_TYPE
      [(API_NAME, lg.api_name), (REQUEST_STATUS, "completed"), (UUID, u)]
      secs
    (lg2, Event.logInfo lg.service_name lg.api_name secs :: r.1,
      match r.2 with
      | Except.ok _ => Except.ok true
      | Except.error e => Except.error e)

/-- `with APIMetricLogger(service_name, api_name): BLOCK`, with Python's
`with`-statement semantics (PEP 343): run `__enter__` (its exception
propagates and skips the block); run the block; on normal completion call
`__exit__(None, None, None)` and discard its result; on a block exception
call `__exit__(type, value, tb)` and re-raise unless it returns a truthy
value.  `t0`/`t1` are the two `_Now()` readings, `u1`/`u2` the two generated
uuids, `ctx1`/`ctx2` the environments of the two publish calls, and `block`
the block's outcome.  The result value is `none` when a block exception was
suppressed by `__exit__` (the surrounding function would return `None`). -/
def withAPIMetricLogger {α : Type} (service_name api_name app_id : String)
    (t0 t1 : ℚ) (u1 u2 : String) (ctx1 ctx2 : CallCtx)
    (block : Except PyExn α) : List Event × Except PyExn (Option α) :=
  let e := (APIMetricLogger.mk0 service_name api_name).enter t0 app_id u1 ctx1
  match e.2.2 with
  | Except.error ex => (e.2.1, Except.error ex)
  | Except.ok _ =>
    match block with
    | Except.ok v =>
      let x := e.1.exit false t1 app_id u2 ctx2
      (e.2.1 ++ x.2.1,
        match x.2.2 with
        | Except.ok _ => Except.ok (some v)
        | Except.error ex2 => Except.error ex2)
    | Except.error bex =>
      let x := e.1.exit true t1 app_id u2 ctx2
      (e.2.1 ++ x.2.1,
        match x.2.2 with
        | Except.ok suppress =>
          if suppress then Except.ok none else Except.error bex
        | Except.error ex2 => Except.error ex2)

/-- The `APIMetric(service_name, api_name)` decorator applied to a callable:
the wrapper runs the callable inside `with APIMetricLogger(service_name,
api_name)` and returns its result. -/
def APIMetric {α : Type} (service_name api_name app_id : String)
    (t0 t1 : ℚ) (u1 u2 : String) (ctx1 ctx2 : CallCtx)
    (wrapped : Except PyExn α) : List Event × Except PyExn (Option α) :=
  withAPIMetricLogger service_name api_name app_id t0 t1 u1 u2 ctx1 ctx2 wrapped

/-- The time-series records actually handed to `create_time_series`, in
order, of an event trace. -/
def emittedSeries (evs : List Event) : List TimeSeries :=
  evs.filterMap fun ev =>
    match ev with
    | Event.createTimeSeries _ s => some s
    | _ => none

/-- The `request_status` metric label of a series. -/
def seriesStatus (s : TimeSeries) : Option String :=
  s.metricLabels.lookup REQUEST_STATUS

/-- The double values of a series' data points, in order. -/
def seriesValues (s : TimeSeries) : List ℚ :=
  s.points.map Point.doubleValue

theorem pyInt_of_nonneg {q : ℚ} (h : 0 ≤ q) : pyInt q = ⌊q⌋ := if_pos h

/-- C2: for every call to the publish primitive whose client construction
succeeds, if the backend send `create_time_series` raises, the call still
returns normally (no exception surfaces to its caller) and a warning-level
log line is emitted. -/
theorem publish_send_failure_suppressed_and_warned
    (now : ℚ) (project_id service_name metric_type : String)
    (label_dict : Labels) (metric_value : ℚ) :
    (PublishTSCloudMetric ⟨true, false, now⟩ project_id service_name metric_type
        label_dict metric_value).2 = Except.ok () ∧
    Event.logWarning ∈ (PublishTSCloudMetric ⟨true, false, now⟩ project_id
        service_name metric_type label_dict metric_value).1 := by
  constructor <;> simp [PublishTSCloudMetric]

/-- C8: for every call to the publish primitive, if constructing the
monitoring-service client raises, that exception propagates to the caller:
no event happens and the outcome is the construction error, regardless of
the rest of the environment and the arguments. -/
theorem publish_client_ctor_error_propagates
    (sendOk : Bool) (now : ℚ) (project_id service_name metric_type : String)
    (label_dict : Labels) (metric_value : ℚ) :
    PublishTSCloudMetric ⟨false, sendOk, now⟩ project_id service_name metric_type
        label_dict metric_value = ([], Except.error PyExn.clientCtorError) := by
  simp [PublishTSCloudMetric]

/-- C9: for every call to the publish primitive, whatever the caller-supplied
`label_dict` (including one that mentions keys such as "project_id" or
"task_id"), the emitted series' resource labels are exactly the five fixed
pairs, and the caller's labels land only in the metric labels. -/
theorem publish_resource_labels_fixed
    (sendOk : Bool) (now : ℚ) (project_id service_name metric_type : String)
    (label_dict : Labels) (metric_value : ℚ) :
    ∃ s : TimeSeries,
      emittedSeries (PublishTSCloudMetric ⟨true, sendOk, now⟩ project_id
          service_name metric_type label_dict metric_value).1 = [s] ∧
      s.resourceLabels = [("project_id", project_id), ("location", "us-central1"),
        ("namespace", "Prod"), ("job", service_name),
        ("task_id", "task_id")] ∧
      s.metricLabels = label_dict := by
  refine ⟨buildSeries project_id service_name metric_type label_dict
    metric_value now, ?_, ?_, ?_⟩ <;>
    cases sendOk <;>
      simp [PublishTSCloudMetric, emittedSeries, buildSeries, LOCATION,
        NAMESPACE, DEFAULT_TASK_ID]

/-- C3: the call `PublishFrozenJobMetric("proj1", "job42", "perf", "FROZEN")`
produces exactly one outbound time-series record, with metric type
`custom.googleapis.com/pinpoint/job/frozen_job`, resource labels including
`project_id = "proj1"`, metric labels exactly
`{job_id: "job42", job_type: "perf", job_status: "FROZEN"}`, and a single
data point of double value 1. -/
theorem frozen_job_metric_scenario (sendOk : Bool) (now : ℚ) :
    ∃ s : TimeSeries,
      emittedSeries (PublishFrozenJobMetric ⟨true, sendOk, now⟩ "proj1" "job42"
          "perf" "FROZEN" 1).1 = [s] ∧
      s.metricType = "custom.googleapis.com/pinpoint/job/frozen_job" ∧
      s.resourceLabels.lookup "project_id" = some "proj1" ∧
      s.metricLabels =
        [("job_id", "job42"), ("job_type", "perf"), ("job_status", "FROZEN")] ∧
      ∃ p : Point, s.points = [p] ∧ p.doubleValue = 1 := by
  refine ⟨buildSeries "proj1" "pinpoint" "pinpoint/job/frozen_job"
      (jobLabelDict "job42" "perf" "FROZEN") 1 now, ?_, ?_, ?_, ?_, ?_⟩
  case _ =>
    cases sendOk <;>
      simp [PublishFrozenJobMetric, PublishTSCloudMetric, emittedSeries]
  case _ => rfl
  case _ => rfl
  case _ => rfl
  case _ => exact ⟨_, rfl, rfl⟩

/-- C7: for every job-metric call (frozen job, job status, job run time, and
the three detail metrics), the emitted series' metric type is the fixed head
`custom.googleapis.com/` concatenated with the documented suffix, and the
metric label map is exactly the three keys `job_id`, `job_type`,
`job_status` bound to the caller's argument values. -/
theorem job_metrics_type_and_labels
    (b1 b2 b3 b4 b5 b6 : Bool) (n1 n2 n3 n4 n5 n6 : ℚ)
    (project_id job_id job_type job_status : String) (v cc ac dc : ℚ) :
    ((emittedSeries (PublishFrozenJobMetric ⟨true, b1, n1⟩ project_id job_id
          job_type job_status v).1).map
        (fun s => (s.metricType, s.metricLabels)) =
      [("custom.googleapis.com/" ++ "pinpoint/job/frozen_job",
        [("job_id", job_id), ("job_type", job_type),
         ("job_status", job_status)])]) ∧
    ((emittedSeries (PublishPinpointJobStatusMetric ⟨true, b2, n2⟩ project_id
          job_id job_type job_status v).1).map
        (fun s => (s.metricType, s.metricLabels)) =
      [("custom.googleapis.com/" ++ "pinpoint/job/status_change",
        [("job_id", job_id), ("job_type", job_type),
         ("job_status", job_status)])]) ∧
    ((emittedSeries (PublishPinpointJobRunTimeMetric ⟨true, b3, n3⟩ project_id
          job_id job_type job_status v).1).map
        (fun s => (s.metricType, s.metricLabels)) =
      [("custom.googleapis.com/" ++ "pinpoint/job/run_time",
        [("job_id", job_id), ("job_type", job_type),
         ("job_status", job_status)])]) ∧
    ((emittedSeries (PublishPinpointJobDetailMetrics ⟨true, b4, n4⟩
          ⟨true, b5, n5⟩ ⟨true, b6, n6⟩ project_id job_id job_type job_status
          cc ac dc).1).map
        (fun s => (s.metricType, s.metricLabels)) =
      [("custom.googleapis.com/" ++ "pinpoint/job/change_count_per_job",
        [("job_id", job_id), ("job_type", job_type),
         ("job_status", job_status)]),
       ("custom.googleapis.com/" ++ "pinpoint/job/attempt_count_per_job",
        [("job_id", job_id), ("job_type", job_type),
         ("job_status", job_status)]),
       ("custom.googleapis.com/" ++ "pinpoint/job/difference_count_per_job",
        [("job_id", job_id), ("job_type", job_type),
         ("job_status", job_status)])]) := by
  refine ⟨?_, ?_, ?_, ?_⟩
  case _ =>
    cases b1 <;>
      simp [PublishFrozenJobMetric, PublishTSCloudMetric, emittedSeries,
        buildSeries, jobLabelDict, METRIC_TYPE_HEAD, JOB_ID, JOB_TYPE,
        JOB_STATUS]
  case _ =>
    cases b2 <;>
      simp [PublishPinpointJobStatusMetric, PublishTSCloudMetric,
        emittedSeries, buildSeries, jobLabelDict, METRIC_TYPE_HEAD, JOB_ID,
        JOB_TYPE, JOB_STATUS]
  case _ =>
    cases b3 <;>
      simp [PublishPinpointJobRunTimeMetric, PublishTSCloudMetric,
        emittedSeries, buildSeries, jobLabelDict, METRIC_TYPE_HEAD, JOB_ID,
        JOB_TYPE, JOB_STATUS]
  case _ =>
    cases b4 <;> cases b5 <;> cases b6 <;>
      simp [PublishPinpointJobDetailMetrics, PublishTSCloudMetric,
        emittedSeries, buildSeries, jobLabelDict, METRIC_TYPE_HEAD, JOB_ID,
        JOB_TYPE, JOB_STATUS]

/-- C4: `PublishPinpointJobDetailMetrics` emits exactly three points, on the
three distinct suffixes change_count_per_job / attempt_count_per_job /
difference_count_per_job, carrying respectively `change_count`,
`attempt_count` and `difference_count` as values, with the identical label
map `{job_id, job_type, job_status}` on all three. -/
theorem job_detail_metrics_three_points
    (b1 b2 b3 : Bool) (n1 n2 n3 : ℚ)
    (project_id job_id job_type job_status : String)
    (change_count attempt_count difference_count : ℚ) :
    ∃ a b c : TimeSeries,
      emittedSeries (PublishPinpointJobDetailMetrics ⟨true, b1, n1⟩
          ⟨true, b2, n2⟩ ⟨true, b3, n3⟩ project_id job_id job_type job_status
          change_count attempt_count difference_count).1 = [a, b, c] ∧
      a.metricType = "custom.googleapis.com/pinpoint/job/change_count_per_job" ∧
      b.metricType = "custom.googleapis.com/pinpoint/job/attempt_count_per_job" ∧
      c.metricType = "custom.googleapis.com/pinpoint/job/difference_count_per_job" ∧
      seriesValues a = [change_count] ∧
      seriesValues b = [attempt_count] ∧
      seriesValues c = [difference_count] ∧
      a.metricLabels = b.metricLabels ∧ b.metricLabels = c.metricLabels ∧
      a.metricLabels =
        [("job_id", job_id), ("job_type", job_type),
         ("job_status", job_status)] := by
  refine ⟨buildSeries project_id "pinpoint" "pinpoint/job/change_count_per_job"
      (jobLabelDict job_id job_type job_status) change_count n1,
    buildSeries project_id "pinpoint" "pinpoint/job/attempt_count_per_job"
      (jobLabelDict job_id job_type job_status) attempt_count n2,
    buildSeries project_id "pinpoint" "pinpoint/job/difference_count_per_job"
      (jobLabelDict job_id job_type job_status) difference_count n3,
    ?_, rfl, rfl, rfl, rfl, rfl, rfl, rfl, rfl, rfl⟩
  cases b1 <;> cases b2 <;> cases b3 <;>
    simp [PublishPinpointJobDetailMetrics, PublishTSCloudMetric, emittedSeries]

/-- C1, counterexample: a concrete run of the scoped timer (both as a
context manager and through the `APIMetric` decorator) whose block raises
`blockExn 7`; the overall outcome is that very exception, so it is NOT
suppressed — it propagates to the caller of the scoped timer.  This refutes
the claim that the block's exception never reaches the caller. -/
theorem scoped_timer_block_exception_cex :
    (withAPIMetricLogger "pinpoint" "myapi" "app" 0 1 "u1" "u2"
        ⟨true, true, 0⟩ ⟨true, true, 1⟩
        (Except.error (PyExn.blockExn 7) : Except PyExn ℕ)).2
      = Except.error (PyExn.blockExn 7) ∧
    (APIMetric "pinpoint" "myapi" "app" 0 1 "u1" "u2"
        ⟨true, true, 0⟩ ⟨true, true, 1⟩
        (Except.error (PyExn.blockExn 7) : Except PyExn ℕ)).2
      = Except.error (PyExn.blockExn 7) := by
  constructor <;> rfl

/-- C1, amended: if the wrapped block raises an exception, the scoped timer
publishes a "failed" metric point and then re-raises the original exception
to its caller (`__exit__` returns `False`); the exception is NOT suppressed.
This holds for every block exception and every environment in which the two
metric publishes themselves do not raise at client construction; the
`APIMetric` decorator behaves identically since it delegates to the context
manager. -/
theorem scoped_timer_reraises_block_exception {α : Type}
    (service_name api_name app_id : String) (t0 t1 : ℚ) (u1 u2 : String)
    (b1 b2 : Bool) (n1 n2 : ℚ) (e : PyExn) :
    (withAPIMetricLogger service_name api_name app_id t0 t1 u1 u2
        ⟨true, b1, n1⟩ ⟨true, b2, n2⟩ (Except.error e : Except PyExn α)).2
      = Except.error e ∧
    (APIMetric service_name api_name app_id t0 t1 u1 u2
        ⟨true, b1, n1⟩ ⟨true, b2, n2⟩ (Except.error e : Except PyExn α)).2
      = Except.error e := by
  constructor <;>
    cases b1 <;> cases b2 <;>
      simp [withAPIMetricLogger, APIMetric, APIMetricLogger.enter,
        APIMetricLogger.exit, APIMetricLogger.mk0, PublishTSCloudMetric]

/-- C5: every use of the scoped timer emits exactly two metric points: on a
normal run one "started" point at entry and one "completed" point at exit,
on an exceptional run one "started" point at entry and one "failed" point at
exit, never more; the "started" and "failed" points carry the default value
1 (the "completed" point carries the elapsed time). -/
theorem scoped_timer_emits_exactly_two_points {α : Type}
    (service_name api_name app_id : String) (t0 t1 : ℚ) (u1 u2 : String)
    (b1 b2 b3 b4 : Bool) (n1 n2 n3 n4 : ℚ) (v : α) (e : PyExn) :
    ((emittedSeries (withAPIMetricLogger service_name api_name app_id t0 t1
          u1 u2 ⟨true, b1, n1⟩ ⟨true, b2, n2⟩ (Except.ok v)).1).map
        (fun s => (seriesStatus s, seriesValues s)) =
      [(some "started", [1]), (some "completed", [t1 - t0])]) ∧
    ((emittedSeries (withAPIMetricLogger service_name api_name app_id t0 t1
          u1 u2 ⟨true, b3, n3⟩ ⟨true, b4, n4⟩
          (Except.error e : Except PyExn α)).1).map
        (fun s => (seriesStatus s, seriesValues s)) =
      [(some "started", [1]), (some "failed", [1])]) := by
  constructor
  case _ => cases b1 <;> cases b2 <;> rfl
  case _ => cases b3 <;> cases b4 <;> rfl

/-- C6: on a normal (non-exceptional) exit of the scoped timer, the value on
the "completed" point is exactly the elapsed wall-clock time `t1 - t0`
(second `_Now()` reading minus the first), which is non-negative whenever
the clock did not go backwards. -/
theorem scoped_timer_completed_value_elapsed {α : Type}
    (service_name api_name app_id : String) (t0 t1 : ℚ) (u1 u2 : String)
    (b1 b2 : Bool) (n1 n2 : ℚ) (v : α) (h : t0 ≤ t1) :
    ∃ p q : TimeSeries,
      emittedSeries (withAPIMetricLogger service_name api_name app_id t0 t1
          u1 u2 ⟨true, b1, n1⟩ ⟨true, b2, n2⟩ (Except.ok v)).1 = [p, q] ∧
      seriesStatus q = some "completed" ∧
      seriesValues q = [t1 - t0] ∧
      0 ≤ t1 - t0 := by
  cases b1 <;> cases b2 <;> exact ⟨_, _, rfl, rfl, rfl, by linarith⟩

/-- C6 witness: a concrete normal run entered at time 1 and exited at time
3; the completed point carries 3 - 1. -/
theorem scoped_timer_completed_value_elapsed_witness :
    (1 : ℚ) ≤ 3 ∧
    ∃ p q : TimeSeries,
      emittedSeries (withAPIMetricLogger "pinpoint" "myapi" "app" 1 3 "u1"
          "u2" ⟨true, true, 1⟩ ⟨true, true, 3⟩
          (Except.ok (0 : ℕ))).1 = [p, q] ∧
      seriesStatus q = some "completed" ∧
      seriesValues q = [3 - 1] ∧
      (0 : ℚ) ≤ 3 - 1 :=
  ⟨by norm_num,
    scoped_timer_completed_value_elapsed "pinpoint" "myapi" "app" 1 3 "u1"
      "u2" true true 1 3 0 (by norm_num)⟩

/-- C10: for every publish call with a non-negative wall-clock reading
`now`, exactly one data point is attached to the series, its end-time
seconds field is `⌊now⌋`, its nanos field lies in `[0, 10^9)`, and
`seconds + nanos/10^9` approximates `now` from below within `1/10^9`. -/
theorem publish_point_timestamp_split
    (sendOk : Bool) (now : ℚ) (project_id service_name metric_type : String)
    (label_dict : Labels) (metric_value : ℚ) (hnow : 0 ≤ now) :
    ∃ (s : TimeSeries) (p : Point),
      emittedSeries (PublishTSCloudMetric ⟨true, sendOk, now⟩ project_id
          service_name metric_type label_dict metric_value).1 = [s] ∧
      s.points = [p] ∧
      p.seconds = ⌊now⌋ ∧
      0 ≤ p.nanos ∧ p.nanos < 10 ^ 9 ∧
      (p.seconds : ℚ) + (p.nanos : ℚ) / 10 ^ 9 ≤ now ∧
      now < (p.seconds : ℚ) + ((p.nanos : ℚ) + 1) / 10 ^ 9 := by
  have hsec : pyInt now = ⌊now⌋ := pyInt_of_nonneg hnow
  have hf0 : 0 ≤ now - (⌊now⌋ : ℚ) := sub_nonneg.mpr (Int.floor_le now)
  have hf1 : now - (⌊now⌋ : ℚ) < 1 := by
    have := Int.lt_floor_add_one now
    linarith
  have hm0 : 0 ≤ (now - (⌊now⌋ : ℚ)) * 10 ^ 9 := by positivity
  have hnan : pyInt ((now - (⌊now⌋ : ℚ)) * 10 ^ 9) =
      ⌊(now - (⌊now⌋ : ℚ)) * 10 ^ 9⌋ := pyInt_of_nonneg hm0
  refine ⟨buildSeries project_id service_name metric_type label_dict
      metric_value now,
    ⟨pyInt now, pyInt ((now - (pyInt now : ℚ)) * 10 ^ 9), metric_value⟩,
    ?_, rfl, ?_, ?_, ?_, ?_, ?_⟩
  case _ =>
    cases sendOk <;> simp [PublishTSCloudMetric, emittedSeries]
  case _ => exact hsec
  all_goals rw [hsec] at *
  case _ =>
    rw [hnan]
    exact Int.floor_nonneg.mpr hm0
  case _ =>
    rw [hnan]
    refine Int.floor_lt.mpr ?_
    push_cast
    nlinarith
  case _ =>
    rw [hnan]
    dsimp only
    have hle : (⌊(now - (⌊now⌋ : ℚ)) * 10 ^ 9⌋ : ℚ) ≤
        (now - (⌊now⌋ : ℚ)) * 10 ^ 9 := Int.floor_le _
    have hdiv : (⌊(now - (⌊now⌋ : ℚ)) * 10 ^ 9⌋ : ℚ) / 10 ^ 9 ≤
        now - (⌊now⌋ : ℚ) := by
      rw [div_le_iff₀ (by norm_num : (0 : ℚ) < 10 ^ 9)]
      linarith
    linarith
  case _ =>
    rw [hnan]
    dsimp only
    have hlt : (now - (⌊now⌋ : ℚ)) * 10 ^ 9 <
        (⌊(now - (⌊now⌋ : ℚ)) * 10 ^ 9⌋ : ℚ) + 1 := Int.lt_floor_add_one _
    have hdiv : now - (⌊now⌋ : ℚ) <
        ((⌊(now - (⌊now⌋ : ℚ)) * 10 ^ 9⌋ : ℚ) + 1) / 10 ^ 9 := by
      rw [lt_div_iff₀ (by norm_num : (0 : ℚ) < 10 ^ 9)]
      linarith
    linarith

/-- C10 witness: a concrete publish at wall-clock reading 5/2; the point
carries seconds 2 and nanos 5·10^8. -/
theorem publish_point_timestamp_split_witness :
    (0 : ℚ) ≤ 5 / 2 ∧
    ∃ (s : TimeSeries) (p : Point),
      emittedSeries (PublishTSCloudMetric ⟨true, true, 5 / 2⟩ "proj" "svc"
          "mtype" [] 1).1 = [s] ∧
      s.points = [p] ∧
      p.seconds = ⌊(5 / 2 : ℚ)⌋ ∧
      0 ≤ p.nanos ∧ p.nanos < 10 ^ 9 ∧
      (p.seconds : ℚ) + (p.nanos : ℚ) / 10 ^ 9 ≤ 5 / 2 ∧
      (5 / 2 : ℚ) < (p.seconds : ℚ) + ((p.nanos : ℚ) + 1) / 10 ^ 9 :=
  ⟨by norm_num,
    publish_point_timestamp_split true (5 / 2) "proj" "svc" "mtype" [] 1
      (by norm_num)⟩

end CloudMetric
